import Mathlib

/-!
Shallow embedding of the okteto stack manifest compiler
(pkg/model/stack.go and the stack translate pass) together with theorems
checking the specification claims against it.

Modelling conventions:
- a Go `map[K]V` value is represented as an association list
  `List (K × V)`; the list order stands for one admissible (unspecified)
  iteration order of the Go map, and lookups take the first match.
- Go `int32`/`int64` values are modelled as `Int`; the code performs no
  arithmetic on them (only comparisons and equality), so overflow never
  arises.
- `resource.Quantity` is modelled as `Int`;
  `q.Cmp(resource.MustParse("0")) > 0` becomes `0 < q`.
- errors built with `fmt.Errorf` are modelled as a structured error type
  recording exactly the data interpolated into the message.
- file contents and ambient-environment expansion are passed in as
  explicit collaborator functions, mirroring the spec boundary.
-/

/-- An environment variable: `model.EnvVar` is a name/value pair (only its
`Name`/`Value` fields are accessed by the sources). -/
structure EnvVar where
  name : String
  value : String
deriving DecidableEq, Repr, Inhabited

/-- Modelled from the spec: the build spec carries a context path, a
dockerfile path, a target stage, cache sources, build args and a legacy
`name` field; the Go declaration of `BuildInfo` is outside the provided
sources, which access exactly these fields. -/
structure BuildInfo where
  name : String
  context : String
  dockerfile : String
  target : String
  cacheFrom : List String
  args : List EnvVar
deriving DecidableEq, Repr, Inhabited

/-- `ServiceResources`: CPU / memory / storage quantities
(`Quantity.Value` modelled as `Int`, storage class as a string). -/
structure StorageResource where
  size : Int
  className : String
deriving DecidableEq, Repr, Inhabited

/-- CPU and memory quantities plus storage of a limits or requests block. -/
structure ServiceResources where
  cpu : Int
  memory : Int
  storage : StorageResource
deriving DecidableEq, Repr, Inhabited

/-- `StackResources`: the limits and requests blocks of a service. -/
structure StackResources where
  limits : ServiceResources
  requests : ServiceResources
deriving DecidableEq, Repr, Inhabited

/-- `model.Service` (pkg/model/stack.go lines 44-64).  `Entrypoint`,
`Command` and `Args` wrap a `Values []string`; they are modelled directly
as `List String`.  Capabilities are strings. -/
structure Service where
  labels : List (String × String)
  annotations : List (String × String)
  public : Bool
  image : String
  build : Option BuildInfo
  replicas : Int
  entrypoint : List String
  command : List String
  args : List String
  environment : List EnvVar
  envFiles : List String
  capAdd : List String
  capDrop : List String
  healthchecks : Bool
  ports : List Int
  expose : List Int
  volumes : List String
  stopGracePeriod : Int
  resources : StackResources
deriving DecidableEq, Repr, Inhabited

/-- `model.Endpoint` (pkg/model/stack.go lines 91-95). -/
structure Endpoint where
  path : String
  service : String
  port : Int
deriving DecidableEq, Repr, Inhabited

/-- `model.Stack` (pkg/model/stack.go lines 35-41): `nspace` models the
`Namespace` field (renamed because `namespace` is a Lean keyword) and
`manifest` the retained raw manifest bytes. -/
structure Stack where
  name : String
  nspace : String
  services : List (String × Service)
  endpoints : List (String × List Endpoint)
  manifest : List Nat
deriving DecidableEq, Repr, Inhabited

/-- Structured counterpart of the error messages produced by the sources;
each constructor records the data interpolated into the Go format string. -/
inductive StackError where
  /-- "Invalid endpoint E: service S does not exist." -/
  | endpointServiceNotFound (endpointName serviceName : String)
  /-- "Invalid endpoint E: service S does not have port P." -/
  | endpointPortNotFound (endpointName serviceName : String) (port : Int)
  /-- "the build and image fields of service S cannot be empty" -/
  | buildImageEmpty (serviceName : String)
deriving DecidableEq, Repr

/-- Go map indexing `s.Services[name]` with the `ok` flag: first match in
the association list. -/
def lookupService (services : List (String × Service)) (n : String) : Option Service :=
  (services.find? (fun p => p.1 == n)).map (fun p => p.2)

/-- `IsPortInService` (pkg/model/stack.go lines 229-236): true when `port`
occurs in `portList`. -/
def IsPortInService (port : Int) (portList : List Int) : Bool :=
  portList.any (fun p => p == port)

/-- The endpoint loop body of `(*Stack).validate`
(pkg/model/stack.go lines 199-207) over one endpoint group: the first
error is returned.  Note the source's guard: it errors precisely when
`IsPortInService` returns true. -/
def validateEndpointGroup (services : List (String × Service)) (endpointName : String) :
    List Endpoint → Option StackError
  | [] => none
  | e :: rest =>
    match lookupService services e.service with
    | none => some (StackError.endpointServiceNotFound endpointName e.service)
    | some svc =>
      if IsPortInService e.port svc.ports then
        some (StackError.endpointPortNotFound endpointName e.service e.port)
      else
        validateEndpointGroup services endpointName rest

/-- The endpoint part of `(*Stack).validate`: scan all endpoint groups,
returning the first error. -/
def validateEndpointGroups (services : List (String × Service)) :
    List (String × List Endpoint) → Option StackError
  | [] => none
  | (gname, es) :: rest =>
    match validateEndpointGroup services gname es with
    | some e => some e
    | none => validateEndpointGroups services rest

/-- Endpoint validation of a stack (pkg/model/stack.go lines 199-207). -/
def validateEndpoints (s : Stack) : Option StackError :=
  validateEndpointGroups s.services s.endpoints

/-- The cpu/memory entries of an emitted `apiv1.ResourceList`. -/
structure ResourceList where
  cpu : Option Int
  memory : Option Int
deriving DecidableEq, Repr, Inhabited

/-- Emitted `apiv1.ResourceRequirements`: optional limits and requests
lists (`none` models a nil Go map). -/
structure ResourceRequirements where
  limits : Option ResourceList
  requests : Option ResourceList
deriving DecidableEq, Repr, Inhabited

/-- `translateResources` (translate source lines 459-483).  Each step
mirrors one `if` of the source; note that the requests-CPU step assigns a
fresh map to `result.Limits`, discarding earlier entries, while the two
memory steps only allocate when the map is still nil. -/
def translateResources (svc : Service) : ResourceRequirements :=
  let result : ResourceRequirements := { limits := none, requests := none }
  let result :=
    if 0 < svc.resources.limits.cpu then
      { result with limits := some { cpu := some svc.resources.limits.cpu, memory := none } }
    else result
  let result :=
    if 0 < svc.resources.limits.memory then
      let l := result.limits.getD { cpu := none, memory := none }
      { result with limits := some { l with memory := some svc.resources.limits.memory } }
    else result
  let result :=
    if 0 < svc.resources.requests.cpu then
      { result with limits := some { cpu := some svc.resources.requests.cpu, memory := none } }
    else result
  let result :=
    if 0 < svc.resources.requests.memory then
      let l := result.limits.getD { cpu := none, memory := none }
      { result with limits := some { l with memory := some svc.resources.requests.memory } }
    else result
  result

/-- The cpu entry of the emitted limits section. -/
def limitsCpu (r : ResourceRequirements) : Option Int :=
  r.limits.bind (fun l => l.cpu)

/-- The memory entry of the emitted limits section. -/
def limitsMem (r : ResourceRequirements) : Option Int :=
  r.limits.bind (fun l => l.memory)

/-- Modelled from the spec: `setBuildDefaults` (declared outside the
provided sources) applies the build-spec defaults, namely unset
dockerfile becomes "Dockerfile" relative to the context and an unset
target stays unset. -/
def setBuildDefaults (b : BuildInfo) : BuildInfo :=
  if b.dockerfile = "" then
    { b with dockerfile := if b.context = "" then "Dockerfile" else b.context ++ "/Dockerfile" }
  else b

/-- Build part of the `ReadStack` defaulting loop
(pkg/model/stack.go lines 163-169): migrate a legacy `build.name` into
`build.context`, then apply the build defaults. -/
def defaultBuild (svc : Service) : Service :=
  match svc.build with
  | none => svc
  | some b =>
    let b := if b.name = "" then b else { b with context := b.name, name := "" }
    { svc with build := some (setBuildDefaults b) }

/-- Replicas defaulting (pkg/model/stack.go lines 170-172): zero becomes one. -/
def defaultReplicas (svc : Service) : Service :=
  if svc.replicas = 0 then { svc with replicas := 1 } else svc

/-- The entrypoint/command swap (pkg/model/stack.go lines 173-177): with a
non-empty entrypoint, the old command becomes args and the entrypoint
becomes command; the entrypoint field itself is left in place. -/
def defaultCommandArgs (svc : Service) : Service :=
  if 0 < svc.entrypoint.length then
    { svc with args := svc.command, command := svc.entrypoint }
  else svc

/-- Public flag defaulting (pkg/model/stack.go lines 178-180): with a
non-empty expose list and still-empty ports, force `public := false`. -/
def defaultPublic (svc : Service) : Service :=
  if 0 < svc.expose.length ∧ svc.ports.length = 0 then
    { svc with public := false }
  else svc

/-- Expose folding (pkg/model/stack.go lines 182-184): append every
expose entry to ports. -/
def defaultPorts (svc : Service) : Service :=
  if 0 < svc.expose.length then { svc with ports := svc.ports ++ svc.expose } else svc

/-- One iteration of the `ReadStack` per-service defaulting loop
(pkg/model/stack.go lines 162-187), in source order. -/
def defaultService (svc : Service) : Service :=
  defaultPorts (defaultPublic (defaultCommandArgs (defaultReplicas (defaultBuild svc))))

/-- The whole defaulting pass of `ReadStack` over a parsed stack: every
service is defaulted in place. -/
def defaultStack (s : Stack) : Stack :=
  { s with services := s.services.map (fun p => (p.1, defaultService p.2)) }

/-- True when the explicit environment already carries an entry named `n`
(the delete loop of `translateServiceEnvFile`, translate source
lines 104-106, removes exactly these names from a parsed file). -/
def envHasName (env : List EnvVar) (n : String) : Bool :=
  env.any (fun e => e.name == n)

/-- `translateServiceEnvFile` (translate source lines 86-115) after the
file has been read and parsed: names already present in the service's
environment are deleted from the parsed file map, and the remaining
entries are appended.  `fileEnv` is the parsed file content (a map, so
its names are distinct; its list order models the map iteration order). -/
def mergeEnvFile (env : List EnvVar) (fileEnv : List (String × String)) : List EnvVar :=
  env ++ (fileEnv.filter (fun p => !(envHasName env p.1))).map (fun p => { name := p.1, value := p.2 })

/-- The env-file loop of `translateStackEnvVars` (translate source
lines 72-76): files are merged in declaration order, each into the
accumulated environment. -/
def mergeEnvFiles (env : List EnvVar) (files : List (List (String × String))) : List EnvVar :=
  files.foldl mergeEnvFile env

/-- Ordering used by the sort of `translateStackEnvVars` (translate
source lines 77-79): ascending by variable name. -/
def envLe (a b : EnvVar) : Prop := a.name ≤ b.name

instance : DecidableRel envLe :=
  fun a b => inferInstanceAs (Decidable (a.name ≤ b.name))

instance : IsTotal EnvVar envLe :=
  ⟨fun a b => le_total a.name b.name⟩

instance : IsTrans EnvVar envLe :=
  ⟨fun _ _ _ h1 h2 => le_trans h1 h2⟩

/-- The per-service body of `translateStackEnvVars` (translate source
lines 67-82): expand the image, merge every referenced env file, sort the
result by name, clear the env-file references.  `expand` models
`model.ExpandEnv` (ambient-environment expansion, an external
collaborator) and `fs` maps an expanded filename to its parsed content
(file IO plus `gotenv.StrictParse`); IO and parse failures are a
fatal-error path not modelled here. -/
def resolveServiceEnv (expand : String → String) (fs : String → List (String × String))
    (svc : Service) : Service :=
  let env := mergeEnvFiles svc.environment (svc.envFiles.map (fun f => fs (expand f)))
  { svc with
    image := expand svc.image
    environment := List.insertionSort envLe env
    envFiles := [] }

/-- `translateStackEnvVars` (translate source lines 65-84): every service
is resolved in place. -/
def translateStackEnvVars (expand : String → String) (fs : String → List (String × String))
    (s : Stack) : Stack :=
  { s with services := s.services.map (fun p => (p.1, resolveServiceEnv expand fs p.2)) }

/-- Modelled from the spec: the fixed stack-name label key (the sources
reference it only through the labels package; the claims need only that
the two fixed keys are distinct). -/
def stackNameLabel : String := "stack.okteto.com/name"

/-- Modelled from the spec: the fixed service-name label key. -/
def stackServiceNameLabel : String := "stack.okteto.com/service"

/-- A Go `map[string]string` as a lookup function; `labelSet m k v`
models `m[k] = v`. -/
def labelSet (m : String → Option String) (k v : String) : String → Option String :=
  fun x => if x = k then some v else m x

/-- `translateLabels` (translate source lines 349-359): start from the
literal with the two fixed entries, then write every user label on top
(map writes, so a user key equal to a fixed key overwrites it).  The
result is the final map as a lookup function; `svc.labels` keys are
distinct (a Go map), so the fold order is irrelevant to the result. -/
def translateLabels (svcName : String) (s : Stack) : String → Option String :=
  let svc := (lookupService s.services svcName).getD default
  svc.labels.foldl (fun m p => labelSet m p.1 p.2)
    (labelSet (labelSet (fun _ => none) stackNameLabel s.name) stackServiceNameLabel svcName)

/-- Outcome of `registry.GetImageTagWithDigest` as branched on by the
translate source (line 135): a nil error (tag found), the sentinel
`errors.ErrNotFound`, or any other (transport) error. -/
inductive RegistryResult where
  | found
  | notFound
  | transportError
deriving DecidableEq, Repr

/-- `strings.HasPrefix(s, p)`: true when `p` is a prefix of `s`
(spelled over the character lists so the kernel can evaluate it). -/
def strHasPre (p s : String) : Bool :=
  List.isPrefixOf p.data s.data

/-- The managed-cluster image rewrite (translate source lines 131-133):
on a managed cluster, an image not already under the okteto.dev prefix is
replaced by okteto.dev/stackName-svcName:okteto. -/
def rewriteImage (isOktetoCluster : Bool) (stackName svcName : String) (svc : Service) : Service :=
  if isOktetoCluster ∧ ¬ strHasPre "okteto.dev" svc.image then
    { svc with image := "okteto.dev/" ++ stackName ++ "-" ++ svcName ++ ":okteto" }
  else svc

deriving instance DecidableEq for Except

/-- The per-service body of `translateBuildImages` (translate source
lines 124-153).  Returns the updated service and whether Build Execution
(`build.Run`) is invoked for it; the lookup collaborator maps an image
reference to its registry outcome.  The build branch also stamps a
last-built timestamp annotation (real time, not modelled) and can fail in
`build.Run` (collaborator failure, not needed by the claims). -/
def translateBuildService (isOktetoCluster forceBuild : Bool) (stackName : String)
    (lookup : String → RegistryResult) (svcName : String) (svc : Service) :
    Except StackError (Service × Bool) :=
  match svc.build with
  | none => Except.ok (svc, false)
  | some _ =>
    if isOktetoCluster = false ∧ svc.image = "" then
      Except.error (StackError.buildImageEmpty svcName)
    else
      let svc := rewriteImage isOktetoCluster stackName svcName svc
      if forceBuild = false ∧ ¬ lookup svc.image = RegistryResult.notFound then
        Except.ok (svc, false)
      else
        Except.ok (svc, true)

/-- The service loop of `translateBuildImages` (translate source
lines 124-153), over the services in map-iteration order: returns the
updated service list together with the names of the services for which a
per-service build decision was made (those with a build spec), in
decision order. -/
def translateBuildLoop (isOktetoCluster forceBuild : Bool) (stackName : String)
    (lookup : String → RegistryResult) :
    List (String × Service) → Except StackError (List (String × Service) × List String)
  | [] => Except.ok ([], [])
  | (n, svc) :: rest =>
    match translateBuildService isOktetoCluster forceBuild stackName lookup n svc with
    | Except.error e => Except.error e
    | Except.ok (svc2, _) =>
      match translateBuildLoop isOktetoCluster forceBuild stackName lookup rest with
      | Except.error e => Except.error e
      | Except.ok (rest2, order) =>
        Except.ok ((n, svc2) :: rest2, if svc.build.isSome then n :: order else order)

/-- `translateBuildImages` over a stack: the updated stack plus the
per-service decision order. -/
def translateBuildImages (isOktetoCluster forceBuild : Bool) (s : Stack)
    (lookup : String → RegistryResult) : Except StackError (Stack × List String) :=
  match translateBuildLoop isOktetoCluster forceBuild s.name lookup s.services with
  | Except.error e => Except.error e
  | Except.ok (services2, order) => Except.ok ({ s with services := services2 }, order)

/-- Decision order returned by a run of the build loop (empty on the
error path, which aborts the loop). -/
def decisionOrderOf (r : Except StackError (List (String × Service) × List String)) : List String :=
  match r with
  | Except.ok p => p.2
  | Except.error _ => []

/-- Image of the updated service returned by a per-service build step
(none on the error path). -/
def imageOf (r : Except StackError (Service × Bool)) : Option String :=
  match r with
  | Except.ok p => some p.1.image
  | Except.error _ => none

/-- Concrete service declaring port 8080 (used to exercise the endpoint
validation). -/
def portService : Service :=
  { (default : Service) with image := "nginx", ports := [8080] }

/-- Stack whose endpoint references a declared service and one of its
declared ports. -/
def c1Stack : Stack :=
  { (default : Stack) with
    name := "st"
    services := [("app", portService)]
    endpoints := [("web", [{ path := "/", service := "app", port := 8080 }])] }

/-- Same stack, but the endpoint references port 9999, which the service
does not declare. -/
def c1StackAbsentPort : Stack :=
  { c1Stack with endpoints := [("web", [{ path := "/", service := "app", port := 9999 }])] }

/-- C1: the spec says validation accepts an endpoint iff its service
exists and its port is declared by that service.  The code inverts the
port check: `validate` errors exactly when `IsPortInService` returns
true, with a message claiming the service does not have the port, and
accepts an endpoint whose port the service does not declare.  This
theorem evaluates the code at both failing inputs. -/
theorem c1_endpoint_port_check_inverted :
    IsPortInService 8080 portService.ports = true ∧
    validateEndpoints c1Stack = some (StackError.endpointPortNotFound "web" "app" 8080) ∧
    IsPortInService 9999 portService.ports = false ∧
    validateEndpoints c1StackAbsentPort = none := by
  decide

/-- C7: with `entrypoint = [a]` and `command = [b]`, defaulting yields
effective `command = [a]` and `args = [b]` (pkg/model/stack.go
lines 173-177). -/
theorem c7_entrypoint_command_swap (svc : Service) (a b : String)
    (h1 : svc.entrypoint = [a]) (h2 : svc.command = [b]) :
    (defaultService svc).command = [a] ∧ (defaultService svc).args = [b] := by
  obtain ⟨l1, l2, pub, img, bld, rep, ent, cmd, ags, env, ef, ca, cd, hc, po, ex, vo, sg, re⟩ := svc
  dsimp only at h1 h2
  subst h1
  subst h2
  cases bld <;>
    simp [defaultService, defaultBuild, defaultReplicas, defaultCommandArgs, defaultPublic,
      defaultPorts] <;>
    split_ifs <;> simp_all

/-- Concrete service exercising the entrypoint/command swap. -/
def c7Service : Service :=
  { (default : Service) with image := "img", entrypoint := ["a"], command := ["b"] }

/-- Witness for C7 at a concrete service. -/
theorem c7_entrypoint_command_swap_witness :
    (defaultService c7Service).command = ["a"] ∧ (defaultService c7Service).args = ["b"] :=
  c7_entrypoint_command_swap c7Service "a" "b" (by decide) (by decide)

/-- C9: emitted requirements never carry a requests section; every limits
entry is strictly positive and is one of the declared quantities; every
positive request value lands in the limits section (translate source
lines 459-483). -/
theorem c9_resources_emission (svc : Service) :
    (translateResources svc).requests = none ∧
    (∀ c : Int, limitsCpu (translateResources svc) = some c →
      0 < c ∧ (c = svc.resources.limits.cpu ∨ c = svc.resources.requests.cpu)) ∧
    (∀ m : Int, limitsMem (translateResources svc) = some m →
      0 < m ∧ (m = svc.resources.limits.memory ∨ m = svc.resources.requests.memory)) ∧
    (0 < svc.resources.requests.cpu →
      limitsCpu (translateResources svc) = some svc.resources.requests.cpu) ∧
    (0 < svc.resources.requests.memory →
      limitsMem (translateResources svc) = some svc.resources.requests.memory) := by
  simp only [translateResources, limitsCpu, limitsMem]
  split_ifs <;> simp_all

/-- Concrete resources: cpu request 2, memory request 3, no limits. -/
def c9Service : Service :=
  { (default : Service) with
    resources :=
      { limits := default
        requests := { cpu := 2, memory := 3, storage := default } } }

/-- Witness for C9 at a concrete service. -/
theorem c9_resources_emission_witness :
    limitsCpu (translateResources c9Service) = some 2 ∧
    limitsMem (translateResources c9Service) = some 3 :=
  ⟨(c9_resources_emission c9Service).2.2.2.1 (by decide),
   (c9_resources_emission c9Service).2.2.2.2 (by decide)⟩

/-- C10: a positive CPU request makes the translate write a fresh limits
map, so every previously emitted limit entry is discarded: the final
limits section holds exactly the request values (translate source
lines 472-481). -/
theorem c10_request_cpu_resets_limits (svc : Service)
    (h0 : 0 < svc.resources.limits.cpu ∨ 0 < svc.resources.limits.memory)
    (h1 : 0 < svc.resources.requests.cpu) :
    (translateResources svc).limits =
      some { cpu := some svc.resources.requests.cpu
             memory := if 0 < svc.resources.requests.memory
                       then some svc.resources.requests.memory else none } := by
  simp only [translateResources]
  split_ifs <;> simp_all

/-- Concrete resources: declared cpu limit 7 and memory limit 9 are both
discarded by the cpu request 2. -/
def c10Service : Service :=
  { (default : Service) with
    resources :=
      { limits := { cpu := 7, memory := 9, storage := default }
        requests := { cpu := 2, memory := 0, storage := default } } }

/-- Witness for C10: at the concrete service the emitted limits hold only
the request cpu; the declared limits 7 and 9 are gone. -/
theorem c10_request_cpu_resets_limits_witness :
    (translateResources c10Service).limits = some { cpu := some 2, memory := none } :=
  c10_request_cpu_resets_limits c10Service (by decide) (by decide)

/-- C8: for a service with a build spec, (a) on a managed build cluster an
image not already under the okteto.dev namespace is rewritten to
okteto.dev/stackName-svcName:okteto, and (b) off a managed cluster an
empty image is a configuration error naming the service (translate source
lines 124-133). -/
theorem c8_build_image_rules (stackName svcName : String) (svc : Service) (b : BuildInfo)
    (fb : Bool) (lookup : String → RegistryResult) (hb : svc.build = some b) :
    (strHasPre "okteto.dev" svc.image = false →
      imageOf (translateBuildService true fb stackName lookup svcName svc) =
        some ("okteto.dev/" ++ stackName ++ "-" ++ svcName ++ ":okteto")) ∧
    (svc.image = "" →
      translateBuildService false fb stackName lookup svcName svc =
        Except.error (StackError.buildImageEmpty svcName)) := by
  constructor
  · intro hpre
    simp only [translateBuildService, hb, rewriteImage, hpre]
    split_ifs <;> simp_all [imageOf]
  · intro hempty
    simp only [translateBuildService, hb]
    split_ifs <;> simp_all

/-- Concrete service with a build spec and an unprefixed image. -/
def c8Service : Service :=
  { (default : Service) with image := "registry.example.com/api:1", build := some default }

/-- Concrete service with a build spec and an empty image. -/
def c8ServiceEmptyImage : Service :=
  { (default : Service) with image := "", build := some default }

/-- Witness for C8 at concrete services on both branches. -/
theorem c8_build_image_rules_witness :
    imageOf (translateBuildService true false "mystack" (fun _ => RegistryResult.found) "api"
        c8Service) = some ("okteto.dev/" ++ "mystack" ++ "-" ++ "api" ++ ":okteto") ∧
    translateBuildService false false "mystack" (fun _ => RegistryResult.found) "api"
        c8ServiceEmptyImage = Except.error (StackError.buildImageEmpty "api") :=
  ⟨(c8_build_image_rules "mystack" "api" c8Service default false
      (fun _ => RegistryResult.found) (by decide)).1 (by decide),
   (c8_build_image_rules "mystack" "api" c8ServiceEmptyImage default false
      (fun _ => RegistryResult.found) (by decide)).2 (by decide)⟩

/-- C5 counterexample: a registry transport failure takes exactly the
same silent skip branch as a found tag (the source skips whenever the
lookup error differs from ErrNotFound), so it is not treated as distinct
from the normal found/skip outcome, and no error is surfaced. -/
theorem c5_transport_failure_skips_like_found :
    translateBuildService false false "st" (fun _ => RegistryResult.transportError) "api"
        c8Service = Except.ok (c8Service, false) ∧
    translateBuildService false false "st" (fun _ => RegistryResult.found) "api"
        c8Service = Except.ok (c8Service, false) := by
  decide

/-- C5 amended: with forceBuild false, Build Execution is invoked for a
service with a build spec iff the registry lookup on the (possibly
rewritten) target image returns NotFound; every other lookup outcome --
found or transport failure alike -- silently skips the build and leaves
the image as it stood after the managed-cluster rewrite (translate source
lines 134-140). -/
theorem c5_build_decision_amended (stackName svcName : String) (svc : Service) (b : BuildInfo)
    (lookup : String → RegistryResult) (isOkteto : Bool)
    (hb : svc.build = some b) (him : isOkteto = false → svc.image ≠ "") :
    (lookup (rewriteImage isOkteto stackName svcName svc).image = RegistryResult.notFound →
      translateBuildService isOkteto false stackName lookup svcName svc =
        Except.ok (rewriteImage isOkteto stackName svcName svc, true)) ∧
    (¬ lookup (rewriteImage isOkteto stackName svcName svc).image = RegistryResult.notFound →
      translateBuildService isOkteto false stackName lookup svcName svc =
        Except.ok (rewriteImage isOkteto stackName svcName svc, false)) := by
  constructor <;> intro hl <;>
    · simp only [translateBuildService, hb]
      split_ifs <;> simp_all

/-- Witness for C5 amended: found tag on an unmanaged cluster skips the
build and returns the service unchanged. -/
theorem c5_build_decision_amended_witness :
    translateBuildService false false "st" (fun _ => RegistryResult.found) "api" c8Service =
      Except.ok (rewriteImage false "st" "api" c8Service, false) :=
  (c5_build_decision_amended "st" "api" c8Service default (fun _ => RegistryResult.found)
      false (by decide) (by decide)).2 (by decide)

/-- Stack whose service map iterates "b" before "a" (a legal Go map
iteration order); both services carry build specs. -/
def c6Stack : Stack :=
  { (default : Stack) with
    name := "st"
    services :=
      [("b", { (default : Service) with image := "okteto.dev/x", build := some default }),
       ("a", { (default : Service) with image := "okteto.dev/x", build := some default })] }

/-- C6 counterexample: the per-service build decisions are made in map
iteration order, which here is ["b", "a"] -- not sorted by service name,
contradicting the claimed sorted evaluation order. -/
theorem c6_decision_order_not_sorted :
    decisionOrderOf (translateBuildLoop true true "st" (fun _ => RegistryResult.found)
        c6Stack.services) = ["b", "a"] ∧
    ¬ List.Sorted (fun x y : String => x ≤ y) ["b", "a"] := by
  constructor
  · decide
  · simp [List.sorted_cons]
    decide

/-- C6 amended: the per-service decision order is exactly the services
map's iteration order restricted to services with a build spec -- the
loop ranges directly over the map (translate source line 124) and sorts
nothing, so no sorted order is guaranteed. -/
theorem c6_decision_order_is_iteration_order (isOkteto forceBuild : Bool) (stackName : String)
    (lookup : String → RegistryResult) (services : List (String × Service))
    (l : List (String × Service)) (order : List String)
    (h : translateBuildLoop isOkteto forceBuild stackName lookup services =
      Except.ok (l, order)) :
    order = (services.filter (fun p => p.2.build.isSome)).map (fun p => p.1) := by
  induction services generalizing l order with
  | nil =>
    simp only [translateBuildLoop] at h
    cases h
    rfl
  | cons p rest ih =>
    obtain ⟨n, svc⟩ := p
    simp only [translateBuildLoop] at h
    cases htb : translateBuildService isOkteto forceBuild stackName lookup n svc with
    | error e => rw [htb] at h; cases h
    | ok r =>
      rw [htb] at h
      cases hrest : translateBuildLoop isOkteto forceBuild stackName lookup rest with
      | error e => rw [hrest] at h; cases h
      | ok q =>
        rw [hrest] at h
        obtain ⟨rest2, order2⟩ := q
        obtain ⟨rsvc, rb⟩ := r
        cases h
        cases hbs : svc.build with
        | none => simpa [List.filter_cons, hbs] using ih rest2 order2 hrest
        | some b => simpa [List.filter_cons, hbs] using ih rest2 order2 hrest

/-- Witness for C6 amended at the concrete two-service stack. -/
theorem c6_decision_order_is_iteration_order_witness :
    (["b", "a"] : List String) =
      (c6Stack.services.filter (fun p => p.2.build.isSome)).map (fun p => p.1) :=
  c6_decision_order_is_iteration_order true true "st" (fun _ => RegistryResult.found)
    c6Stack.services c6Stack.services ["b", "a"] (by decide)

/-- Service carrying a user label equal to the fixed stack-name key. -/
def c4Service : Service :=
  { (default : Service) with image := "img", labels := [(stackNameLabel, "evil")] }

/-- Stack holding that service under name "api". -/
def c4Stack : Stack :=
  { (default : Stack) with name := "mystack", services := [("api", c4Service)] }

/-- C4 counterexample: the fixed pair is written first and user labels
are merged on top of it (translate source lines 349-359), so a user
label with the fixed stack-name key overrides the stack's name in the
emitted label set. -/
theorem c4_user_label_overrides_fixed_pair :
    translateLabels "api" c4Stack stackNameLabel = some "evil" ∧
    c4Stack.name = "mystack" ∧ ("evil" : String) ≠ "mystack" := by
  decide

/-- Writes for keys different from `k` do not change the map at `k`. -/
theorem foldl_labelSet_ne (l : List (String × String)) (m : String → Option String)
    (k : String) (h : ∀ p ∈ l, p.1 ≠ k) :
    (l.foldl (fun m p => labelSet m p.1 p.2) m) k = m k := by
  induction l generalizing m with
  | nil => rfl
  | cons p rest ih =>
    simp only [List.foldl_cons]
    rw [ih _ (fun q hq => h q (List.mem_cons_of_mem p hq))]
    simp only [labelSet]
    rw [if_neg (Ne.symm (h p (List.mem_cons_self p rest)))]

/-- C4 amended: the fixed pair is written first and user labels can
override it; whenever the user labels use neither fixed key, the emitted
label set maps the stack-name key to the stack's name and the
service-name key to the service's name. -/
theorem c4_fixed_labels_when_user_disjoint (svcName : String) (s : Stack)
    (h : ∀ p ∈ ((lookupService s.services svcName).getD default).labels,
      p.1 ≠ stackNameLabel ∧ p.1 ≠ stackServiceNameLabel) :
    translateLabels svcName s stackNameLabel = some s.name ∧
    translateLabels svcName s stackServiceNameLabel = some svcName := by
  unfold translateLabels
  constructor
  · rw [foldl_labelSet_ne _ _ _ (fun p hp => (h p hp).1)]
    simp [labelSet]
    intro he
    exact absurd he (by decide)
  · rw [foldl_labelSet_ne _ _ _ (fun p hp => (h p hp).2)]
    simp [labelSet]

/-- Stack with a user label on a disjoint key. -/
def c4StackDisjoint : Stack :=
  { (default : Stack) with
    name := "mystack"
    services := [("api", { (default : Service) with image := "img", labels := [("team", "x")] })] }

/-- Witness for C4 amended at a concrete stack. -/
theorem c4_fixed_labels_when_user_disjoint_witness :
    translateLabels "api" c4StackDisjoint stackNameLabel = some c4StackDisjoint.name ∧
    translateLabels "api" c4StackDisjoint stackServiceNameLabel = some "api" :=
  c4_fixed_labels_when_user_disjoint "api" c4StackDisjoint (by decide)

/-- Stack whose single service has a non-empty entrypoint and expose
list, exposing the non-idempotence of the defaulting pass. -/
def c3Stack : Stack :=
  { (default : Stack) with
    name := "st"
    services :=
      [("app",
        { (default : Service) with
          image := "img", entrypoint := ["a"], command := ["b"], expose := [8080] })] }

/-- C3 counterexample: running the per-service defaulting pass twice on
an already-defaulted stack changes it again -- the second pass copies the
(already swapped) command over args and appends the expose entries to
ports a second time (pkg/model/stack.go lines 173-184 clear neither
`entrypoint` nor `expose`). -/
theorem c3_defaulting_not_idempotent :
    defaultStack (defaultStack c3Stack) ≠ defaultStack c3Stack := by
  decide

/-- A joined dockerfile path is never the empty string. -/
theorem append_dockerfile_ne (s : String) : ¬ (s ++ "/Dockerfile" = "") := by
  intro h
  have hd := congrArg String.data h
  rw [String.data_append] at hd
  simp at hd

/-- The build-field transformation applied by `defaultBuild`. -/
def buildStep : Option BuildInfo → Option BuildInfo
  | none => none
  | some b =>
    some (setBuildDefaults (if b.name = "" then b else { b with context := b.name, name := "" }))

/-- `defaultBuild` only rewrites the build field, by `buildStep`. -/
theorem defaultBuild_eq (svc : Service) :
    defaultBuild svc = { svc with build := buildStep svc.build } := by
  cases h : svc.build with
  | none =>
    simp only [defaultBuild, h, buildStep]
    rw [← h]
  | some b =>
    simp [defaultBuild, h, buildStep]

/-- The name of a defaulted build spec is unchanged. -/
theorem setBuildDefaults_name (b : BuildInfo) : (setBuildDefaults b).name = b.name := by
  unfold setBuildDefaults
  split_ifs <;> rfl

/-- A defaulted build spec never has an empty dockerfile. -/
theorem setBuildDefaults_dockerfile_ne (b : BuildInfo) :
    ¬ (setBuildDefaults b).dockerfile = "" := by
  unfold setBuildDefaults
  split_ifs with h1 h2
  · simp
  · exact append_dockerfile_ne b.context
  · exact h1

/-- With a non-empty dockerfile, `setBuildDefaults` does nothing. -/
theorem setBuildDefaults_stable (b : BuildInfo) (h : ¬ b.dockerfile = "") :
    setBuildDefaults b = b := by
  unfold setBuildDefaults
  rw [if_neg h]

/-- The build-field transformation is idempotent: the migration leaves an
empty legacy name behind and the defaults leave a non-empty dockerfile. -/
theorem buildStep_idem (ob : Option BuildInfo) : buildStep (buildStep ob) = buildStep ob := by
  cases ob with
  | none => rfl
  | some b =>
    simp only [buildStep]
    have hname :
        (setBuildDefaults (if b.name = "" then b
          else { b with context := b.name, name := "" })).name = "" := by
      rw [setBuildDefaults_name]
      split_ifs with h
      · exact h
      · rfl
    rw [if_pos hname, setBuildDefaults_stable _ (setBuildDefaults_dockerfile_ne _)]

/-- A service whose build field is a fixed point of `buildStep` passes
through `defaultBuild` unchanged. -/
theorem defaultBuild_stable (svc : Service) (h : buildStep svc.build = svc.build) :
    defaultBuild svc = svc := by
  rw [defaultBuild_eq, h]

/-- The build field after `defaultBuild`. -/
theorem defaultBuild_build (svc : Service) : (defaultBuild svc).build = buildStep svc.build := by
  rw [defaultBuild_eq]

/-- `defaultBuild` leaves the entrypoint untouched. -/
theorem defaultBuild_entrypoint (svc : Service) :
    (defaultBuild svc).entrypoint = svc.entrypoint := by
  rw [defaultBuild_eq]

/-- `defaultBuild` leaves the expose list untouched. -/
theorem defaultBuild_expose (svc : Service) : (defaultBuild svc).expose = svc.expose := by
  rw [defaultBuild_eq]

/-- `defaultReplicas` leaves the entrypoint untouched. -/
theorem defaultReplicas_entrypoint (svc : Service) :
    (defaultReplicas svc).entrypoint = svc.entrypoint := by
  unfold defaultReplicas
  split_ifs <;> rfl

/-- `defaultReplicas` leaves the expose list untouched. -/
theorem defaultReplicas_expose (svc : Service) :
    (defaultReplicas svc).expose = svc.expose := by
  unfold defaultReplicas
  split_ifs <;> rfl

/-- `defaultReplicas` leaves the build field untouched. -/
theorem defaultReplicas_build (svc : Service) : (defaultReplicas svc).build = svc.build := by
  unfold defaultReplicas
  split_ifs <;> rfl

/-- Replicas defaulting is idempotent: zero becomes one, never zero again. -/
theorem defaultReplicas_idem (svc : Service) :
    defaultReplicas (defaultReplicas svc) = defaultReplicas svc := by
  unfold defaultReplicas
  split_ifs <;> rfl

/-- With an empty entrypoint the swap does nothing. -/
theorem defaultCommandArgs_nil (svc : Service) (h : svc.entrypoint = []) :
    defaultCommandArgs svc = svc := by
  unfold defaultCommandArgs
  rw [h]
  simp

/-- With an empty expose list the public defaulting does nothing. -/
theorem defaultPublic_nil (svc : Service) (h : svc.expose = []) :
    defaultPublic svc = svc := by
  unfold defaultPublic
  rw [h]
  simp

/-- With an empty expose list the expose folding does nothing. -/
theorem defaultPorts_nil (svc : Service) (h : svc.expose = []) :
    defaultPorts svc = svc := by
  unfold defaultPorts
  rw [h]
  simp

/-- Defaulting one service is idempotent when its entrypoint and expose
list are empty (the two sources of re-defaulting are then switched off;
build, replicas and public defaulting are stable on their own). -/
theorem defaultService_idem (svc : Service) (h1 : svc.entrypoint = [])
    (h2 : svc.expose = []) :
    defaultService (defaultService svc) = defaultService svc := by
  have hre : (defaultReplicas (defaultBuild svc)).entrypoint = [] := by
    rw [defaultReplicas_entrypoint, defaultBuild_entrypoint]
    exact h1
  have hrx : (defaultReplicas (defaultBuild svc)).expose = [] := by
    rw [defaultReplicas_expose, defaultBuild_expose]
    exact h2
  have e1 : defaultService svc = defaultReplicas (defaultBuild svc) := by
    unfold defaultService
    rw [defaultCommandArgs_nil _ hre, defaultPublic_nil _ hrx, defaultPorts_nil _ hrx]
  have hby : buildStep (defaultReplicas (defaultBuild svc)).build =
      (defaultReplicas (defaultBuild svc)).build := by
    rw [defaultReplicas_build, defaultBuild_build, buildStep_idem]
  rw [e1]
  unfold defaultService
  rw [defaultBuild_stable _ hby, defaultReplicas_idem,
    defaultCommandArgs_nil _ hre, defaultPublic_nil _ hrx, defaultPorts_nil _ hrx]

/-- C3 amended: the defaulting pass is idempotent exactly when no service
re-triggers the two unsanitized steps -- for every stack whose services
all have an empty entrypoint and an empty expose list, a second
defaulting pass changes nothing; with a non-empty entrypoint the swap
reruns and with a non-empty expose the ports grow again
(counterexample). -/
theorem c3_defaulting_idempotent_no_swap_no_expose (s : Stack)
    (h : ∀ p ∈ s.services, p.2.entrypoint = [] ∧ p.2.expose = []) :
    defaultStack (defaultStack s) = defaultStack s := by
  unfold defaultStack
  simp only [List.map_map, Stack.mk.injEq, eq_self_iff_true, true_and, and_true]
  apply List.map_congr_left
  intro p hp
  obtain ⟨h1, h2⟩ := h p hp
  simp only [Function.comp]
  rw [defaultService_idem p.2 h1 h2]

/-- Stack with empty entrypoints and expose lists. -/
def c3PlainStack : Stack :=
  { (default : Stack) with
    name := "st"
    services := [("app", { (default : Service) with image := "img", ports := [80] })] }

/-- Witness for C3 amended at a concrete stack. -/
theorem c3_defaulting_idempotent_no_swap_no_expose_witness :
    defaultStack (defaultStack c3PlainStack) = defaultStack c3PlainStack :=
  c3_defaulting_idempotent_no_swap_no_expose c3PlainStack (by decide)

/-- An environment with no entry named `n` filters to nothing at `n`. -/
theorem envHasName_false_filter (env : List EnvVar) (n : String)
    (h : envHasName env n = false) : env.filter (fun e => e.name == n) = [] := by
  rw [List.filter_eq_nil_iff]
  intro e he hne
  have h2 : envHasName env n = true := by
    unfold envHasName
    exact List.any_eq_true.mpr ⟨e, he, hne⟩
  rw [h] at h2
  exact absurd h2 (by decide)

/-- A file merge adds no entry for a name the environment already has. -/
theorem mergeEnvFile_filter_of_has (env : List EnvVar) (f : List (String × String)) (n : String)
    (h : envHasName env n = true) :
    (mergeEnvFile env f).filter (fun e => e.name == n) =
      env.filter (fun e => e.name == n) := by
  unfold mergeEnvFile
  rw [List.filter_append]
  suffices hs : ((f.filter (fun p => !(envHasName env p.1))).map
      (fun p => ({ name := p.1, value := p.2 } : EnvVar))).filter
        (fun e => e.name == n) = [] by
    rw [hs, List.append_nil]
  rw [List.filter_map, List.map_eq_nil_iff, List.filter_eq_nil_iff]
  intro p hp hcomp
  have hp2 := List.of_mem_filter hp
  have hn : p.1 = n := by simpa using hcomp
  rw [hn, h] at hp2
  exact absurd hp2 (by decide)

/-- Names already present survive a file merge. -/
theorem envHasName_mergeEnvFile_left (env : List EnvVar) (f : List (String × String))
    (n : String) (h : envHasName env n = true) :
    envHasName (mergeEnvFile env f) n = true := by
  unfold envHasName mergeEnvFile at *
  rw [List.any_append, h, Bool.true_or]

/-- A merge of a file not defining `n` into an environment without `n`
still lacks `n`. -/
theorem envHasName_mergeEnvFile_false (env : List EnvVar) (f : List (String × String))
    (n : String) (h : envHasName env n = false) (hf : f.any (fun p => p.1 == n) = false) :
    envHasName (mergeEnvFile env f) n = false := by
  unfold envHasName mergeEnvFile at *
  rw [List.any_append, h, Bool.false_or, List.any_eq_false]
  intro e he
  obtain ⟨p, hp, rfl⟩ := List.mem_map.mp he
  obtain ⟨hpf, _⟩ := List.mem_filter.mp hp
  have := List.any_eq_false.mp hf p hpf
  simpa using this

/-- A merge of a file defining `n` into an environment without `n`
introduces `n`. -/
theorem envHasName_mergeEnvFile_file (env : List EnvVar) (f : List (String × String))
    (n : String) (h : envHasName env n = false) (hf : f.any (fun p => p.1 == n) = true) :
    envHasName (mergeEnvFile env f) n = true := by
  unfold envHasName mergeEnvFile at *
  rw [List.any_append, Bool.or_eq_true]
  right
  obtain ⟨p, hp, hpn⟩ := List.any_eq_true.mp hf
  apply List.any_eq_true.mpr
  refine ⟨{ name := p.1, value := p.2 }, ?_, by simpa using hpn⟩
  apply List.mem_map_of_mem
  apply List.mem_filter.mpr
  refine ⟨hp, ?_⟩
  have hn : p.1 = n := by simpa using hpn
  rw [hn]
  simp [envHasName, h]

/-- Folding any number of files over an environment that already has an
explicit entry named `n` preserves exactly the explicit entries for `n`:
explicit environment entries always win over file values. -/
theorem mergeEnvFiles_filter_of_has (files : List (List (String × String)))
    (env : List EnvVar) (n : String) (h : envHasName env n = true) :
    (mergeEnvFiles env files).filter (fun e => e.name == n) =
      env.filter (fun e => e.name == n) := by
  induction files generalizing env with
  | nil => rfl
  | cons f fs ih =>
    show (mergeEnvFiles (mergeEnvFile env f) fs).filter (fun e => e.name == n) = _
    rw [ih (mergeEnvFile env f) (envHasName_mergeEnvFile_left env f n h)]
    exact mergeEnvFile_filter_of_has env f n h

/-- A merged file adds exactly its own entries for a fresh name `n`. -/
theorem mergeEnvFile_filter_of_not_has (env : List EnvVar) (f : List (String × String))
    (n : String) (h : envHasName env n = false) :
    (mergeEnvFile env f).filter (fun e => e.name == n) =
      (f.filter (fun p => p.1 == n)).map (fun p => ({ name := p.1, value := p.2 } : EnvVar)) := by
  unfold mergeEnvFile
  rw [List.filter_append, envHasName_false_filter env n h, List.nil_append, List.filter_map]
  congr 1
  rw [List.filter_filter]
  apply List.filter_congr
  intro p hp
  by_cases hpn : p.1 = n
  · subst hpn
    simp [h]
  · simp [hpn]

/-- The entries for `n` of the files of a service, as merged: the first
file in declaration order defining `n` provides them. -/
def filesValue : List (List (String × String)) → String → List (String × String)
  | [], _ => []
  | f :: fs, n =>
    if f.any (fun p => p.1 == n) then f.filter (fun p => p.1 == n) else filesValue fs n

/-- Unfolding equation for `filesValue` on a cons. -/
theorem filesValue_cons (f : List (String × String)) (fs : List (List (String × String)))
    (n : String) :
    filesValue (f :: fs) n =
      if f.any (fun p => p.1 == n) then f.filter (fun p => p.1 == n) else filesValue fs n := rfl

/-- For a name with no explicit entry, the merged environment's entries
for that name are those of the first declared file defining it: the
first-declared file wins, later files never override it. -/
theorem mergeEnvFiles_filter_of_not_has (files : List (List (String × String)))
    (env : List EnvVar) (n : String) (h : envHasName env n = false) :
    (mergeEnvFiles env files).filter (fun e => e.name == n) =
      (filesValue files n).map (fun p => ({ name := p.1, value := p.2 } : EnvVar)) := by
  induction files generalizing env with
  | nil =>
    show env.filter _ = _
    rw [envHasName_false_filter env n h]
    rfl
  | cons f fs ih =>
    show (mergeEnvFiles (mergeEnvFile env f) fs).filter (fun e => e.name == n) = _
    cases hf : f.any (fun p => p.1 == n) with
    | true =>
      rw [mergeEnvFiles_filter_of_has fs _ n (envHasName_mergeEnvFile_file env f n h hf)]
      rw [mergeEnvFile_filter_of_not_has env f n h]
      rw [filesValue_cons, if_pos hf]
    | false =>
      rw [ih _ (envHasName_mergeEnvFile_false env f n h hf)]
      rw [filesValue_cons, if_neg (by simp [hf])]

/-- File-content collaborator: f1 and f2 both define FOO. -/
def c2fs : String → List (String × String) :=
  fun f => if f = "f1" then [("FOO", "v1")] else if f = "f2" then [("FOO", "v2")] else []

/-- Service with no explicit environment and two env files, declared in
the order f1, f2. -/
def c2Service : Service :=
  { (default : Service) with image := "img", envFiles := ["f1", "f2"] }

/-- C2 counterexample: with two env files both defining FOO, resolution
keeps the FIRST-declared file's value, not the last one -- once f1's
entries are appended to the service environment, the delete loop of
`translateServiceEnvFile` strips FOO from f2's parsed map (translate
source lines 104-113). -/
theorem c2_last_file_does_not_win :
    (resolveServiceEnv (fun x => x) c2fs c2Service).environment =
      [{ name := "FOO", value := "v1" }] ∧
    ({ name := "FOO", value := "v1" } : EnvVar) ≠ { name := "FOO", value := "v2" } := by
  decide

/-- C2 amended: env-file references are cleared, the merged environment
is sorted ascending by name, names with an explicit entry keep exactly
their explicit values (explicit always beats file values), and for any
other name the FIRST-declared file defining it provides the values --
later files never override an earlier file's entry. -/
theorem c2_env_resolution (expand : String → String) (fs : String → List (String × String))
    (svc : Service) (n : String) :
    (resolveServiceEnv expand fs svc).envFiles = [] ∧
    List.Sorted envLe (resolveServiceEnv expand fs svc).environment ∧
    (envHasName svc.environment n = true →
      ((resolveServiceEnv expand fs svc).environment.filter (fun e => e.name == n)).Perm
        (svc.environment.filter (fun e => e.name == n))) ∧
    (envHasName svc.environment n = false →
      ((resolveServiceEnv expand fs svc).environment.filter (fun e => e.name == n)).Perm
        ((filesValue (svc.envFiles.map (fun f => fs (expand f))) n).map
          (fun p => ({ name := p.1, value := p.2 } : EnvVar)))) := by
  refine ⟨rfl, List.sorted_insertionSort envLe _, ?_, ?_⟩
  · intro h
    have hperm := (List.perm_insertionSort envLe
      (mergeEnvFiles svc.environment (svc.envFiles.map (fun f => fs (expand f))))).filter
        (fun e => e.name == n)
    rw [mergeEnvFiles_filter_of_has _ _ _ h] at hperm
    exact hperm
  · intro h
    have hperm := (List.perm_insertionSort envLe
      (mergeEnvFiles svc.environment (svc.envFiles.map (fun f => fs (expand f))))).filter
        (fun e => e.name == n)
    rw [mergeEnvFiles_filter_of_not_has _ _ _ h] at hperm
    exact hperm

/-- Witness for C2 amended at the concrete two-file service: the entries
for FOO in the resolved environment are exactly the first file's. -/
theorem c2_env_resolution_witness :
    ((resolveServiceEnv (fun x => x) c2fs c2Service).environment.filter
        (fun e => e.name == "FOO")).Perm
      ((filesValue (c2Service.envFiles.map (fun f => c2fs ((fun x => x) f))) "FOO").map
        (fun p => ({ name := p.1, value := p.2 } : EnvVar))) :=
  (c2_env_resolution (fun x => x) c2fs c2Service "FOO").2.2.2 (by decide)
